import Mathlib

/-!
# Verification of the streaming response protocol handler

Shallow embedding of the streaming chat protocol handler implemented in
`frontend/src/hooks/useChat.js`.  The embedding translates the stateful
React hook into explicit state passing: the pieces of React state the
protocol logic touches (`messages`, `canSendMessage`, the
`streamingMessageIdRef` ref, `inputValue`) become fields of a `ChatState`
record, and each event handler of the hook becomes a function
`ChatState → … → ChatState`.

Presentational fields that the handlers set but that carry no protocol
content (`timestamp` — wall-clock time —, `typingProgress`,
`thinkingProcess`, `performance_metrics`, `model_info`, scroll state,
toasts and console logging) are omitted; every field read by a branch
condition or contributing to message content or status is kept.
-/

/-- A chat message as produced by `useChat.js`.  `type` is `"user"` or
`"assistant"`; `isLoading`/`isStreaming`/`isError` are the status flags the
hook reads and writes; `sources` is the citation metadata attached on
`stream_complete`. -/
structure Message where
  id : String
  type : String
  content : String
  isLoading : Bool := false
  isStreaming : Bool := false
  isError : Bool := false
  sources : List String := []
  deriving Repr, DecidableEq

/-- The React state of the hook that the protocol logic reads and writes:
the ordered message list, the text in the input box, the single-flight
gate `canSendMessage`, and `streamingMessageIdRef.current`. -/
structure ChatState where
  messages : List Message
  inputValue : String
  canSendMessage : Bool
  streamingMessageId : Option String
  deriving Repr, DecidableEq

/-- The initial state of the hook (`useState([])`, `useState("")`,
`useState(true)`, `useRef(null)`). -/
def initialChatState : ChatState :=
  { messages := [], inputValue := "", canSendMessage := true,
    streamingMessageId := none }

/-- JS `findIndex` + in-place update of the found element: apply `f` to the
first element satisfying `p`, leave the list unchanged when none matches
(`streamingMsgIndex === -1`). -/
def updateFirst (p : Message → Bool) (f : Message → Message) :
    List Message → List Message
  | [] => []
  | m :: ms => if p m then f m :: ms else m :: updateFirst p f ms

/-- `messages.find(msg => msg.id === sid)` — the message an update keyed on
`sid` would hit. -/
def findMsg (sid : String) (msgs : List Message) : Option Message :=
  msgs.find? (fun m => m.id == sid)

/-- Inbound push-transport (WebSocket) frames, after JSON parsing, exactly
the `data.type` cases `handleWebSocketMessage` switches on.  Fields mirror
the properties each branch reads. -/
inductive WsFrame where
  | stream_start : WsFrame
  | progress (step : String) (pct : Nat) : WsFrame
  | stream_chunk (content : String) (chunk_index total_chunks : Nat) : WsFrame
  | stream_complete (fullContent : String) (sources : List String) : WsFrame
  | error (message : String) : WsFrame
  deriving Repr, DecidableEq

/-- JS `String.prototype.trim()`: strip whitespace from both ends.
Implemented on the character list so that concrete instances reduce in the
kernel (`String.trim` itself is position-based and does not). -/
def jsTrim (s : String) : String :=
  ⟨((s.data.dropWhile Char.isWhitespace).reverse.dropWhile
      Char.isWhitespace).reverse⟩

/-- Occurrence of `pat` as a contiguous run of `l` (helper for
`strIncludes`). -/
def charListIncludes (pat : List Char) : List Char → Bool
  | [] => pat.isEmpty
  | c :: t => pat.isPrefixOf (c :: t) || charListIncludes pat t

/-- JS `String.prototype.includes(pattern)`. -/
def strIncludes (s pattern : String) : Bool :=
  charListIncludes pattern.data s.data

/-- Default error notice of the WebSocket `error` branch
("an error occurred while processing the message, please retry"). -/
def defaultErrorMsg : String :=
  "메시지 처리 중 오류가 발생했습니다. 다시 시도해주세요."

/-- Auth-expired notice ("authentication expired, please log in again"). -/
def authExpiredMsg : String := "인증이 만료되었습니다. 다시 로그인해주세요."

/-- Timeout notice ("processing time exceeded…"). -/
def timeoutMsg : String :=
  "처리 시간이 초과되었습니다. 요청을 단순화하거나 잠시 후 다시 시도해주세요."

/-- Rate-limit notice ("request limit reached…"). -/
def rateLimitMsg : String := "요청 한도에 도달했습니다. 잠시 후 다시 시도해주세요."

/-- The error-classification cascade of the `error` branch of
`handleWebSocketMessage`: inspect `data.message` for markers of
auth expiry, timeout, or rate limiting, defaulting to a generic notice. -/
def classifyWsError (message : String) : String :=
  if strIncludes message "401" || strIncludes message "Unauthorized" then
    authExpiredMsg
  else if strIncludes message "timeout" || strIncludes message "시간 초과" then
    timeoutMsg
  else if strIncludes message "rate limit" || strIncludes message "제한" then
    rateLimitMsg
  else defaultErrorMsg

/-- The cancellation notice appended by `handleStopGeneration`
("generation was stopped"). -/
def cancelNotice : String := "[생성이 중단되었습니다]"

/-- The `stream_chunk` message update (lines 149–160): append the chunk,
keep the streaming flags on. -/
def applyChunk (c : String) (m : Message) : Message :=
  { m with content := m.content ++ c, isLoading := true, isStreaming := true }

/-- The `stream_complete` message update (lines 196–204): overwrite the
content with `fullContent`, attach sources, clear the streaming flags. -/
def applyComplete (fc : String) (srcs : List String) (m : Message) : Message :=
  { m with content := fc, sources := srcs,
           isLoading := false, isStreaming := false }

/-- The `error` message update (lines 248–255): replace the content by the
classified notice, clear the streaming flags, set `isError`. -/
def applyWsError (msg : String) (m : Message) : Message :=
  { m with content := classifyWsError msg,
           isLoading := false, isStreaming := false, isError := true }

/-- The SSE chunk update of `handleStreamingResponse` (lines 311–316). -/
def applySseChunk (c : String) (m : Message) : Message :=
  { m with content := m.content ++ c, isLoading := true, isStreaming := true }

/-- The SSE completion update of `handleStreamingComplete`
(lines 358–366): assign the result wholesale, clear the flags. -/
def applySseComplete (r : String) (m : Message) : Message :=
  { m with content := r, isLoading := false, isStreaming := false }

/-- The cancellation update of `handleStopGeneration` (lines 422–430):
append the cancellation notice, clear the flags. -/
def applyCancel (m : Message) : Message :=
  { m with content := m.content ++ "\n\n" ++ cancelNotice,
           isLoading := false, isStreaming := false }

/-- `handleWebSocketMessage` from `useChat.js` (lines 111–276): the
listener receiving push-transport frames.  Every branch first reads
`streamingMessageIdRef.current` (`currentStreamingId`); when it is `null`
the frame only logs and the state is unchanged.

* `stream_start` / `progress`: log only.
* `stream_chunk`: append `data.content` to the streaming message's
  content, keep `isLoading`/`isStreaming` true.
* `stream_complete`: set the streaming message's content to
  `data.fullContent` (overwriting the accumulated buffer), attach
  `data.sources`, clear the streaming flags, then null the ref.
  The branch does not touch `canSendMessage`.
* `error`: set the streaming message's content to the classified
  error notice (the accumulated content is replaced, not appended to),
  mark `isError`, clear the streaming flags, then null the ref.
  The branch does not touch `canSendMessage` either. -/
def handleWebSocketMessage (s : ChatState) (f : WsFrame) : ChatState :=
  match f with
  | .stream_start => s
  | .progress _ _ => s
  | .stream_chunk content _ _ =>
    match s.streamingMessageId with
    | none => s
    | some sid =>
      let msgs := updateFirst (fun m => m.id == sid) (applyChunk content)
        s.messages
      { s with messages := msgs }
  | .stream_complete fullContent sources =>
    match s.streamingMessageId with
    | none => s
    | some sid =>
      let msgs := updateFirst (fun m => m.id == sid)
        (applyComplete fullContent sources) s.messages
      { s with messages := msgs, streamingMessageId := none }
  | .error message =>
    match s.streamingMessageId with
    | none => s
    | some sid =>
      let msgs := updateFirst (fun m => m.id == sid) (applyWsError message)
        s.messages
      { s with messages := msgs, streamingMessageId := none }

/-- `handleStreamingResponse` (lines 292–334): the pull-transport (SSE)
chunk callback.  Guards on a null streaming id, otherwise appends the
chunk to the streaming message's content. -/
def handleStreamingResponse (s : ChatState) (chunk : String) : ChatState :=
  match s.streamingMessageId with
  | none => s
  | some sid =>
    let msgs := updateFirst (fun m => m.id == sid) (applySseChunk chunk)
      s.messages
    { s with messages := msgs }

/-- `handleStreamingComplete` (lines 339–392): the pull-transport
completion callback.  Guards on a null streaming id (returning before any
state update), otherwise assigns `result.result` wholesale as the
message's content, clears the streaming flags, nulls the ref and
re-enables the send gate (`setCanSendMessage(true)`). -/
def handleStreamingComplete (s : ChatState) (result : String) : ChatState :=
  match s.streamingMessageId with
  | none => s
  | some sid =>
    let msgs := updateFirst (fun m => m.id == sid) (applySseComplete result)
      s.messages
    { s with messages := msgs, streamingMessageId := none,
             canSendMessage := true }

/-- `handleStopGeneration` (lines 397–449): explicit cancellation.  If a
streaming message exists, append `"\n\n[생성이 중단되었습니다]"` to its
partial content and clear its streaming flags, then null the ref; in all
cases re-enable the send gate. -/
def handleStopGeneration (s : ChatState) : ChatState :=
  let s1 :=
    match s.streamingMessageId with
    | none => s
    | some sid =>
      let msgs := updateFirst (fun m => m.id == sid) applyCancel
        s.messages
      { s with messages := msgs, streamingMessageId := none }
  { s1 with canSendMessage := true }

/-- One entry of the outbound chat history:
`{role: "user"|"assistant", content}`. -/
structure HistoryEntry where
  role : String
  content : String
  deriving Repr, DecidableEq

/-- The history construction in `handleSendMessage` (lines 576–582): keep
only settled messages (`!isLoading && !isError && !isStreaming`) and map
each to a role/content pair. -/
def toChatHistory (msgs : List Message) : List HistoryEntry :=
  (msgs.filter (fun m => !m.isLoading && !m.isError && !m.isStreaming)).map
    (fun m => { role := if m.type == "user" then "user" else "assistant",
                content := m.content })

/-- `maxHistoryLength` (line 585). -/
def maxHistoryLength : Nat := 50

/-- JS `Array.prototype.slice(-n)`: the suffix of the last `n` elements
(the whole list when it is shorter than `n`). -/
def sliceLast {α : Type} (n : Nat) (l : List α) : List α :=
  l.drop (l.length - n)

/-- A prompt/context card after the normalisation mapping of
`handleSendMessage` (lines 599–608).  `isActive` stands for the JS truth
of `card.isActive !== false && card.enabled !== false` on the raw card
(absent flags count as active). -/
structure PromptCard where
  promptId : String
  title : String
  prompt_text : String
  tags : List String
  isActive : Bool
  stepOrder : Nat
  deriving Repr, DecidableEq

/-- `activePromptCards` (lines 599–610): keep active cards, keep only
cards whose prompt text is non-blank, sort by `stepOrder`. -/
def activePromptCards (cards : List PromptCard) : List PromptCard :=
  ((cards.filter (fun c => c.isActive)).filter
      (fun c => !(jsTrim c.prompt_text == ""))).mergeSort
    (fun a b => a.stepOrder ≤ b.stepOrder)

/-- The synchronous prefix of `handleSendMessage` (lines 500–594) up to
the transport choice, as a record: the state after the gate is taken and
the user/streaming placeholder messages are appended, plus the data the
request builders consume. -/
structure SendBegin where
  state : ChatState
  userMessage : Message
  streamMsgId : String
  trimmedChatHistory : List HistoryEntry
  deriving Repr, DecidableEq

/-- The user message of lines 548–553: `id = "user-" + Date.now()`,
trimmed input as content. -/
def mkUserMessage (now : Nat) (content : String) : Message :=
  { id := "user-" ++ toString now, type := "user", content := content }

/-- The assistant placeholder of lines 562–569:
`id = "streaming-" + Date.now()`, empty content, streaming flags on. -/
def mkStreamingMessage (now : Nat) : Message :=
  { id := "streaming-" ++ toString now, type := "assistant", content := "",
    isLoading := true, isStreaming := true }

/-- `handleSendMessage`, synchronous prefix (lines 500–594).  `now` stands
for `Date.now()` (both generated ids use the same call site pattern).

* Gate (line 503): `if (!inputValue.trim() || !canSendMessage) return;` —
  `none`, nothing changes.
* Otherwise: disable the gate, create the user message and the assistant
  placeholder, point `streamingMessageIdRef` at the placeholder, append
  both messages, clear the input box, and build the trimmed history from
  `[...messages, userMessage]`
  (`chatHistory.slice(-maxHistoryLength)`, lines 576–586). -/
def handleSendMessageBegin (s : ChatState) (now : Nat) : Option SendBegin :=
  if jsTrim s.inputValue == "" || !s.canSendMessage then none
  else
    let userMessage : Message := mkUserMessage now (jsTrim s.inputValue)
    let streamMsgId : String := "streaming-" ++ toString now
    let streamingMessage : Message := mkStreamingMessage now
    let s1 : ChatState :=
      { s with canSendMessage := false,
               streamingMessageId := some streamMsgId,
               messages := s.messages ++ [userMessage, streamingMessage],
               inputValue := "" }
    let chatHistory := toChatHistory (s.messages ++ [userMessage])
    some { state := s1, userMessage := userMessage, streamMsgId := streamMsgId,
           trimmedChatHistory := sliceLast maxHistoryLength chatHistory }

/-- The state effect of attempting to send: unchanged when the gate (or
blank input) rejects the attempt, otherwise the `SendBegin` state. -/
def sendMessageStep (s : ChatState) (now : Nat) : ChatState :=
  match handleSendMessageBegin s now with
  | none => s
  | some b => b.state

/-- The push-transport request: the arguments of the
`wsStartStreaming(...)` call (lines 639–646). -/
structure WsRequest where
  userInput : String
  chatHistory : List HistoryEntry
  promptCards : List PromptCard
  modelId : String
  conversationId : Option String
  userSub : Option String
  deriving Repr, DecidableEq

/-- Build the push-transport request from a begun send (lines 639–646). -/
def buildWsRequest (b : SendBegin) (cards : List PromptCard)
    (modelId : String) (cid : Option String) (uid : Option String) :
    WsRequest :=
  { userInput := b.userMessage.content,
    chatHistory := b.trimmedChatHistory,
    promptCards := activePromptCards cards,
    modelId := modelId, conversationId := cid, userSub := uid }

/-- The pull-transport request body `requestData` (lines 672–678). -/
structure SseRequest where
  userInput : String
  chat_history : List HistoryEntry
  prompt_cards : List PromptCard
  modelId : String
  useKnowledgeBase : Bool
  deriving Repr, DecidableEq

/-- Build the pull-transport request body from a begun send
(lines 672–678). -/
def buildSseRequest (b : SendBegin) (cards : List PromptCard)
    (modelId : String) : SseRequest :=
  { userInput := b.userMessage.content,
    chat_history := b.trimmedChatHistory,
    prompt_cards := activePromptCards cards,
    modelId := modelId, useKnowledgeBase := true }

/-- One `data: ` line of the pull-transport body after JSON parsing:
`some r` when the line parsed and carried a `result` field of value `r`,
`none` when parsing failed (the `catch (parseError)` path, which skips
the line).  The JS guard `if (eventData.result)` additionally drops empty
strings (falsy), which `extractResult` reproduces. -/
def extractResult (ev : Option String) : Option String :=
  match ev with
  | none => none
  | some r => if r == "" then none else some r

/-- The payloads of a pull-transport event sequence that pass the
`if (eventData.result)` guard, in order. -/
def extractResults (evs : List (Option String)) : List String :=
  evs.filterMap extractResult

/-- One iteration of the SSE read loop body (lines 724–736) on the pair
(React state, `fullResponse`): a passing payload both overwrites
`fullResponse` and is fed to `handleStreamingResponse`. -/
def processSseEvent (acc : ChatState × String) (ev : Option String) :
    ChatState × String :=
  match extractResult ev with
  | none => acc
  | some r => (handleStreamingResponse acc.1 r, r)

/-- The SSE read loop (lines 715–740) over an already-framed event
sequence, starting from `fullResponse = ""`. -/
def runSseLoop (s : ChatState) (evs : List (Option String)) :
    ChatState × String :=
  evs.foldl processSseEvent (s, "")

/-- The standalone error message of lines 760–771
(`id = "error-" + Date.now()`, `isError` set). -/
def mkErrorMessage (now : Nat) (content : String) : Message :=
  { id := "error-" ++ toString now, type := "assistant",
    content := content, isError := true }

/-- The `catch` block of `handleSendMessage` (lines 748–786), non-redirect
path: build a standalone error message (`id = "error-" + Date.now()`,
content from `handleAPIError`), remove the streaming placeholder from the
list, append the error message, null the ref and re-enable the gate.
`errorUserMessage` is the user-facing text computed by `handleAPIError`
(a `services/api` function not present under `src/`, so its text is a
parameter here; no claim depends on its value). -/
def sseCatchStep (s : ChatState) (errorUserMessage : String) (now : Nat) :
    ChatState :=
  let errorMessage : Message := mkErrorMessage now errorUserMessage
  let filtered :=
    match s.streamingMessageId with
    | none => s.messages
    | some sid => s.messages.filter (fun m => m.id != sid)
  { s with messages := filtered ++ [errorMessage],
           streamingMessageId := none, canSendMessage := true }

/-- Lines 742–747: after the read loop, a truthy `fullResponse` goes to
`handleStreamingComplete`; an empty one throws
("스트리밍 응답에서 결과를 찾을 수 없습니다"), landing in the `catch`
block. -/
def finishSse (p : ChatState × String) (errorUserMessage : String)
    (now : Nat) : ChatState :=
  if p.2 == "" then sseCatchStep p.1 errorUserMessage now
  else handleStreamingComplete p.1 p.2

/-- The events that drive the protocol state, one constructor per handler
of the hook. -/
inductive ChatEvent where
  | input (value : String) : ChatEvent
  | ws (f : WsFrame) : ChatEvent
  | sseChunk (chunk : String) : ChatEvent
  | sseComplete (result : String) : ChatEvent
  | stop : ChatEvent
  | send (now : Nat) : ChatEvent
  | sseFail (errMsg : String) (now : Nat) : ChatEvent
  deriving Repr, DecidableEq

/-- The protocol step function: dispatch an event to its handler.
`input` is `handleInputChange` (lines 481–487), whose protocol-relevant
effect is `setInputValue(value)` (the height adjustment is
presentational). -/
def chatStep (s : ChatState) (e : ChatEvent) : ChatState :=
  match e with
  | .input v => { s with inputValue := v }
  | .ws f => handleWebSocketMessage s f
  | .sseChunk c => handleStreamingResponse s c
  | .sseComplete r => handleStreamingComplete s r
  | .stop => handleStopGeneration s
  | .send now => sendMessageStep s now
  | .sseFail m now => sseCatchStep s m now

/-- Side condition on `send` events: the `Date.now()`-derived ids of the
new messages do not collide with an id already in the list.  `Date.now()`
is non-decreasing and the ids embed it with distinct prefixes per kind,
so this holds on the real event loop except for sub-millisecond turn
churn. -/
def FreshEvent (s : ChatState) : ChatEvent → Prop
  | .send now => ∀ m ∈ s.messages,
      m.id ≠ "streaming-" ++ toString now ∧ m.id ≠ "user-" ++ toString now
  | _ => True

/-- States reachable from the hook's initial state by events satisfying
the id-freshness side condition. -/
inductive Reachable : ChatState → Prop where
  | init : Reachable initialChatState
  | step {s : ChatState} {e : ChatEvent} : Reachable s → FreshEvent s e →
      Reachable (chatStep s e)

/-- Concrete assistant message used to instantiate theorems: streaming,
with the given partial content. -/
def sampleStreamingMsg (content : String) : Message :=
  { id := "streaming-1", type := "assistant", content := content,
    isLoading := true, isStreaming := true }

/-- Concrete mid-stream state: one user message and one streaming
assistant message, turn gate taken, fresh text in the input box. -/
def sampleStreamingState (content : String) : ChatState :=
  { messages := [mkUserMessage 1 "hi", sampleStreamingMsg content],
    inputValue := "again", canSendMessage := false,
    streamingMessageId := some "streaming-1" }

/-- Concrete settled state after a completed turn: streaming ref cleared. -/
def sampleDoneState : ChatState :=
  { messages := [mkUserMessage 1 "hi",
      { id := "streaming-1", type := "assistant", content := "done" }],
    inputValue := "", canSendMessage := true, streamingMessageId := none }

/-- A settled conversation with 60 completed messages (no flags set, so
all of them survive the history filter). -/
def manyMessages : List Message :=
  (List.range 60).map (fun i =>
    { id := "m-" ++ toString i,
      type := if i % 2 == 0 then "user" else "assistant",
      content := "content-" ++ toString i })

/-- Concrete idle state holding the 60-message history, ready to send. -/
def longHistoryState : ChatState :=
  { messages := manyMessages, inputValue := "next question",
    canSendMessage := true, streamingMessageId := none }

/-- The begun send from `longHistoryState` (the `getD` fallback is never
hit: the gate is open and the input non-blank). -/
def sampleSendBegin : SendBegin :=
  (handleSendMessageBegin longHistoryState 999).getD
    ⟨initialChatState, mkUserMessage 0 "", "", []⟩

/-! ## Helper lemmas about `updateFirst` and `findMsg` -/

theorem findMsg_updateFirst_self (sid : String) (f : Message → Message)
    (hf : ∀ m, (f m).id = m.id) (l : List Message) :
    findMsg sid (updateFirst (fun m => m.id == sid) f l)
      = (findMsg sid l).map f := by
  induction l with
  | nil => rfl
  | cons m ms ih =>
    by_cases h : m.id == sid
    · simp [updateFirst, findMsg, h, hf]
    · simp only [updateFirst, h, if_neg, Bool.false_eq_true, not_false_iff]
      simp only [findMsg, List.find?] at ih ⊢
      simp [h, ih]

theorem findMsg_updateFirst_other (sid i : String) (hne : i ≠ sid)
    (f : Message → Message) (hf : ∀ m, (f m).id = m.id) (l : List Message) :
    findMsg i (updateFirst (fun m => m.id == sid) f l) = findMsg i l := by
  induction l with
  | nil => rfl
  | cons m ms ih =>
    by_cases h : m.id == sid
    · have hmid : m.id = sid := by simpa using h
      have h2 : ((f m).id == i) = false := by
        simp [hf, hmid, Ne.symm hne]
      have h3 : (m.id == i) = false := by simp [hmid, Ne.symm hne]
      simp [updateFirst, findMsg, h, h2, h3]
    · by_cases h4 : m.id == i
      · simp [updateFirst, findMsg, h, h4]
      · simp only [updateFirst, h, if_neg, Bool.false_eq_true, not_false_iff]
        simp only [findMsg, List.find?] at ih ⊢
        simp [h4, ih]

theorem findMsg_append_some {i : String} {l₁ : List Message} {m : Message}
    (h : findMsg i l₁ = some m) (l₂ : List Message) :
    findMsg i (l₁ ++ l₂) = some m := by
  simp only [findMsg] at h ⊢
  simp [List.find?_append, h, Option.or]

theorem findMsg_append_none {i : String} {l₁ : List Message}
    (h : findMsg i l₁ = none) (l₂ : List Message) :
    findMsg i (l₁ ++ l₂) = findMsg i l₂ := by
  simp only [findMsg] at h ⊢
  simp [List.find?_append, h, Option.or]

theorem findMsg_eq_none_of_forall {i : String} {l : List Message}
    (h : ∀ m ∈ l, m.id ≠ i) : findMsg i l = none := by
  induction l with
  | nil => rfl
  | cons m ms ih =>
    have h1 : m.id ≠ i := h m (by simp)
    have h2 : (m.id == i) = false := by simpa using h1
    simp only [findMsg, List.find?, h2]
    exact ih (fun m' hm' => h m' (by simp [hm']))

theorem findMsg_filter_ne (sid i : String) (hne : i ≠ sid)
    (l : List Message) :
    findMsg i (l.filter (fun m => m.id != sid)) = findMsg i l := by
  induction l with
  | nil => rfl
  | cons m ms ih =>
    by_cases h : m.id == i
    · have hmid : m.id = i := by simpa using h
      have hkeep : (m.id != sid) = true := by
        simp [hmid, hne]
      simp [findMsg, List.filter, hkeep, h]
    · by_cases hk : m.id != sid
      · simp only [List.filter, hk]
        simp only [findMsg, List.find?] at ih ⊢
        simp [h, ih]
      · simp only [List.filter, hk]
        simp only [findMsg, List.find?] at ih ⊢
        simp [h, ih]

theorem findMsg_filter_self (sid : String) (l : List Message) :
    findMsg sid (l.filter (fun m => m.id != sid)) = none := by
  apply findMsg_eq_none_of_forall
  intro m hm
  have := List.of_mem_filter hm
  simpa using this

theorem user_id_ne_streaming_id (now : Nat) :
    ("user-" ++ toString now) ≠ ("streaming-" ++ toString now) := by
  intro h
  have := congrArg String.length h
  simp [String.length_append] at this
  exact absurd this (by decide)

/-! ## Branch equations for the handlers -/

theorem applyChunk_id (c : String) (m : Message) :
    (applyChunk c m).id = m.id := rfl

theorem applyComplete_id (fc : String) (srcs : List String) (m : Message) :
    (applyComplete fc srcs m).id = m.id := rfl

theorem applyWsError_id (msg : String) (m : Message) :
    (applyWsError msg m).id = m.id := rfl

theorem applySseChunk_id (c : String) (m : Message) :
    (applySseChunk c m).id = m.id := rfl

theorem applySseComplete_id (r : String) (m : Message) :
    (applySseComplete r m).id = m.id := rfl

theorem applyCancel_id (m : Message) : (applyCancel m).id = m.id := rfl

theorem handleWebSocketMessage_noRef (s : ChatState) (f : WsFrame)
    (h : s.streamingMessageId = none) : handleWebSocketMessage s f = s := by
  cases f <;> simp [handleWebSocketMessage, h]

theorem handleWebSocketMessage_chunk {s : ChatState} {sid : String}
    (h : s.streamingMessageId = some sid) (c : String) (ci tc : Nat) :
    handleWebSocketMessage s (.stream_chunk c ci tc) =
      { s with messages := updateFirst (fun m => m.id == sid) (applyChunk c) s.messages } := by
  simp [handleWebSocketMessage, h]

theorem handleWebSocketMessage_complete {s : ChatState} {sid : String}
    (h : s.streamingMessageId = some sid) (fc : String) (srcs : List String) :
    handleWebSocketMessage s (.stream_complete fc srcs) =
      { s with messages := updateFirst (fun m => m.id == sid) (applyComplete fc srcs) s.messages, streamingMessageId := none } := by
  simp [handleWebSocketMessage, h]

theorem handleWebSocketMessage_errorFrame {s : ChatState} {sid : String}
    (h : s.streamingMessageId = some sid) (msg : String) :
    handleWebSocketMessage s (.error msg) =
      { s with messages := updateFirst (fun m => m.id == sid) (applyWsError msg) s.messages, streamingMessageId := none } := by
  simp [handleWebSocketMessage, h]

theorem handleStreamingResponse_noRef (s : ChatState) (c : String)
    (h : s.streamingMessageId = none) : handleStreamingResponse s c = s := by
  simp [handleStreamingResponse, h]

theorem handleStreamingResponse_some {s : ChatState} {sid : String}
    (h : s.streamingMessageId = some sid) (c : String) :
    handleStreamingResponse s c =
      { s with messages := updateFirst (fun m => m.id == sid) (applySseChunk c) s.messages } := by
  simp [handleStreamingResponse, h]

theorem handleStreamingComplete_noRef (s : ChatState) (r : String)
    (h : s.streamingMessageId = none) : handleStreamingComplete s r = s := by
  simp [handleStreamingComplete, h]

theorem handleStreamingComplete_some {s : ChatState} {sid : String}
    (h : s.streamingMessageId = some sid) (r : String) :
    handleStreamingComplete s r =
      { s with messages := updateFirst (fun m => m.id == sid) (applySseComplete r) s.messages, streamingMessageId := none, canSendMessage := true } := by
  simp [handleStreamingComplete, h]

theorem handleStopGeneration_noRef (s : ChatState)
    (h : s.streamingMessageId = none) :
    handleStopGeneration s = { s with canSendMessage := true } := by
  simp [handleStopGeneration, h]

theorem handleStopGeneration_some {s : ChatState} {sid : String}
    (h : s.streamingMessageId = some sid) :
    handleStopGeneration s =
      { s with messages := updateFirst (fun m => m.id == sid) applyCancel s.messages, streamingMessageId := none, canSendMessage := true } := by
  simp [handleStopGeneration, h]

theorem handleSendMessageBegin_gateFalse {s : ChatState}
    (h : s.canSendMessage = false) (now : Nat) :
    handleSendMessageBegin s now = none := by
  unfold handleSendMessageBegin
  rw [if_pos]
  simp [h]

theorem sendBegin_spec {s : ChatState} {now : Nat} {b : SendBegin}
    (h : handleSendMessageBegin s now = some b) :
    b.state.messages = s.messages ++ [mkUserMessage now (jsTrim s.inputValue), mkStreamingMessage now]
      ∧ b.state.streamingMessageId = some ("streaming-" ++ toString now)
      ∧ b.state.canSendMessage = false
      ∧ b.state.inputValue = ""
      ∧ b.streamMsgId = "streaming-" ++ toString now
      ∧ b.userMessage = mkUserMessage now (jsTrim s.inputValue)
      ∧ b.trimmedChatHistory = sliceLast maxHistoryLength (toChatHistory (s.messages ++ [mkUserMessage now (jsTrim s.inputValue)])) := by
  unfold handleSendMessageBegin at h
  by_cases hg : jsTrim s.inputValue == "" || !s.canSendMessage
  · rw [if_pos hg] at h
    cases h
  · rw [if_neg hg] at h
    simp only [Option.some.injEq] at h
    subst h
    exact ⟨rfl, rfl, rfl, rfl, rfl, rfl, rfl⟩

/-! ## The streaming-ref invariant -/

/-- Whenever `streamingMessageIdRef` points at an id, the first message
carrying that id — the one every keyed update hits — is still streaming. -/
def StreamingRefInv (s : ChatState) : Prop :=
  ∀ sid m, s.streamingMessageId = some sid →
    findMsg sid s.messages = some m → m.isStreaming = true

theorem chatStep_preserves_inv {s : ChatState} {e : ChatEvent}
    (ih : StreamingRefInv s) (hf : FreshEvent s e) :
    StreamingRefInv (chatStep s e) := by
  cases e with
  | input v =>
    intro sid m h1 h2
    exact ih sid m h1 h2
  | ws f =>
    cases f with
    | stream_start => exact ih
    | progress st p => exact ih
    | stream_chunk c ci tc =>
      intro sid m h1 h2
      simp only [chatStep] at h1 h2
      cases href : s.streamingMessageId with
      | none =>
        rw [handleWebSocketMessage_noRef s _ href] at h1 h2
        exact ih sid m h1 h2
      | some sid0 =>
        rw [handleWebSocketMessage_chunk href c ci tc] at h1 h2
        have h1' : s.streamingMessageId = some sid := h1
        rw [href] at h1'
        injection h1' with h1'
        subst h1'
        have h2' : findMsg sid0 (updateFirst (fun m => m.id == sid0) (applyChunk c) s.messages) = some m := h2
        rw [findMsg_updateFirst_self sid0 (applyChunk c) (applyChunk_id c)] at h2'
        cases hfind : findMsg sid0 s.messages with
        | none => rw [hfind] at h2'; cases h2'
        | some m0 =>
          rw [hfind] at h2'
          rw [Option.map_some'] at h2'
          injection h2' with h2'
          subst h2'
          rfl
    | stream_complete fc srcs =>
      intro sid m h1 h2
      simp only [chatStep] at h1 h2
      cases href : s.streamingMessageId with
      | none =>
        rw [handleWebSocketMessage_noRef s _ href] at h1 h2
        exact ih sid m h1 h2
      | some sid0 =>
        rw [handleWebSocketMessage_complete href fc srcs] at h1
        cases h1
    | error msg =>
      intro sid m h1 h2
      simp only [chatStep] at h1 h2
      cases href : s.streamingMessageId with
      | none =>
        rw [handleWebSocketMessage_noRef s _ href] at h1 h2
        exact ih sid m h1 h2
      | some sid0 =>
        rw [handleWebSocketMessage_errorFrame href msg] at h1
        cases h1
  | sseChunk c =>
    intro sid m h1 h2
    simp only [chatStep] at h1 h2
    cases href : s.streamingMessageId with
    | none =>
      rw [handleStreamingResponse_noRef s c href] at h1 h2
      exact ih sid m h1 h2
    | some sid0 =>
      rw [handleStreamingResponse_some href c] at h1 h2
      have h1' : s.streamingMessageId = some sid := h1
      rw [href] at h1'
      injection h1' with h1'
      subst h1'
      have h2' : findMsg sid0 (updateFirst (fun m => m.id == sid0) (applySseChunk c) s.messages) = some m := h2
      rw [findMsg_updateFirst_self sid0 (applySseChunk c) (applySseChunk_id c)] at h2'
      cases hfind : findMsg sid0 s.messages with
      | none => rw [hfind] at h2'; cases h2'
      | some m0 =>
        rw [hfind] at h2'
        rw [Option.map_some'] at h2'
        injection h2' with h2'
        subst h2'
        rfl
  | sseComplete r =>
    intro sid m h1 h2
    simp only [chatStep] at h1 h2
    cases href : s.streamingMessageId with
    | none =>
      rw [handleStreamingComplete_noRef s r href] at h1 h2
      exact ih sid m h1 h2
    | some sid0 =>
      rw [handleStreamingComplete_some href r] at h1
      cases h1
  | stop =>
    intro sid m h1 h2
    simp only [chatStep] at h1 h2
    cases href : s.streamingMessageId with
    | none =>
      rw [handleStopGeneration_noRef s href] at h1
      have h1' : s.streamingMessageId = some sid := h1
      rw [href] at h1'
      cases h1' 
    | some sid0 =>
      rw [handleStopGeneration_some href] at h1
      cases h1
  | send now =>
    intro sid m h1 h2
    simp only [chatStep, sendMessageStep] at h1 h2
    cases hb : handleSendMessageBegin s now with
    | none =>
      rw [hb] at h1 h2
      exact ih sid m h1 h2
    | some b =>
      rw [hb] at h1 h2
      obtain ⟨hmsgs, href, hgate, hinp, hsid, huser, hhist⟩ := sendBegin_spec hb
      rw [href] at h1
      injection h1 with h1
      subst h1
      rw [hmsgs] at h2
      have hnone : findMsg ("streaming-" ++ toString now) s.messages = none := by
        apply findMsg_eq_none_of_forall
        intro m' hm'
        exact (hf m' hm').1
      rw [findMsg_append_none hnone] at h2
      have hu : ((mkUserMessage now (jsTrim s.inputValue)).id
          == "streaming-" ++ toString now) = false := by
        have := user_id_ne_streaming_id now
        simp [mkUserMessage]
        exact this
      simp only [findMsg, List.find?, hu] at h2
      have hst : ((mkStreamingMessage now).id
          == "streaming-" ++ toString now) = true := by
        simp [mkStreamingMessage]
      simp only [hst] at h2
      injection h2 with h2
      subst h2
      rfl
  | sseFail msg now =>
    intro sid m h1 h2
    simp only [chatStep, sseCatchStep] at h1
    cases h1

/-- Every reachable state satisfies the streaming-ref invariant. -/
theorem reachable_inv {s : ChatState} (h : Reachable s) : StreamingRefInv s := by
  induction h with
  | init =>
    intro sid m h1 h2
    simp [initialChatState] at h1
  | step h1 h2 ih => exact chatStep_preserves_inv ih h2

/-! ## Claim theorems -/

/-- **C7.** For every state in which a turn is in flight
(`canSendMessage = false`), attempting to start a second turn is rejected
as a no-op: the whole hook state — message list, in-flight streaming
message content and status, streaming ref, and the gate itself — is left
unchanged by the rejected attempt. -/
theorem C7_second_turn_rejected (s : ChatState) (now : Nat)
    (h : s.canSendMessage = false) :
    sendMessageStep s now = s := by
  simp [sendMessageStep, handleSendMessageBegin_gateFalse h now]

/-- Witness for C7: a concrete mid-stream state (gate taken, non-blank
input) is bit-for-bit unchanged by a second send attempt. -/
theorem C7_second_turn_rejected_witness :
    (sampleStreamingState "Hello").canSendMessage = false
      ∧ sendMessageStep (sampleStreamingState "Hello") 2
        = sampleStreamingState "Hello" :=
  ⟨rfl, C7_second_turn_rejected (sampleStreamingState "Hello") 2 rfl⟩

/-- **C5.** In the code, reaching any terminal state nulls
`streamingMessageIdRef` (`stream_complete` and `error` do so explicitly,
`handleStreamingComplete`, `handleStopGeneration` and the catch path
likewise).  With the ref null, every subsequently delivered frame — any
push frame, an SSE chunk, or the SSE completion callback — leaves the
entire state, hence every message's content and status, unchanged. -/
theorem C5_late_frames_discarded (s : ChatState)
    (h : s.streamingMessageId = none) :
    (∀ f : WsFrame, handleWebSocketMessage s f = s)
      ∧ (∀ c : String, handleStreamingResponse s c = s)
      ∧ (∀ r : String, handleStreamingComplete s r = s) :=
  ⟨fun f => handleWebSocketMessage_noRef s f h,
   fun c => handleStreamingResponse_noRef s c h,
   fun r => handleStreamingComplete_noRef s r h⟩

/-- Witness for C5: late frames of each kind leave a concrete settled
state unchanged. -/
theorem C5_late_frames_discarded_witness :
    sampleDoneState.streamingMessageId = none
      ∧ handleWebSocketMessage sampleDoneState (.stream_chunk "late" 0 1)
        = sampleDoneState
      ∧ handleWebSocketMessage sampleDoneState (.stream_complete "late" [])
        = sampleDoneState
      ∧ handleWebSocketMessage sampleDoneState (.error "late")
        = sampleDoneState
      ∧ handleStreamingResponse sampleDoneState "late" = sampleDoneState
      ∧ handleStreamingComplete sampleDoneState "late" = sampleDoneState :=
  ⟨rfl,
   (C5_late_frames_discarded sampleDoneState rfl).1 (.stream_chunk "late" 0 1),
   (C5_late_frames_discarded sampleDoneState rfl).1 (.stream_complete "late" []),
   (C5_late_frames_discarded sampleDoneState rfl).1 (.error "late"),
   (C5_late_frames_discarded sampleDoneState rfl).2.1 "late",
   (C5_late_frames_discarded sampleDoneState rfl).2.2 "late"⟩

/-- **C4.** When a push-transport `stream_complete` frame carrying
`fullContent` arrives for the streaming message, the message's final
content equals that `fullContent` — for an arbitrary prior message `m`,
i.e. independently of whatever chunk history accumulated in it — the
message leaves the streaming state, and the streaming ref is cleared. -/
theorem C4_fullContent_overwrites (s : ChatState) (sid : String)
    (m : Message) (fc : String) (srcs : List String)
    (h : s.streamingMessageId = some sid)
    (hm : findMsg sid s.messages = some m) :
    findMsg sid (handleWebSocketMessage s (.stream_complete fc srcs)).messages
        = some (applyComplete fc srcs m)
      ∧ (applyComplete fc srcs m).content = fc
      ∧ (applyComplete fc srcs m).isStreaming = false
      ∧ (handleWebSocketMessage s (.stream_complete fc srcs)).streamingMessageId
        = none := by
  rw [handleWebSocketMessage_complete h fc srcs]
  have h2 := findMsg_updateFirst_self sid (applyComplete fc srcs)
    (applyComplete_id fc srcs) s.messages
  rw [hm, Option.map_some'] at h2
  exact ⟨h2, rfl, rfl, rfl⟩

/-- Witness for C4: the accumulated preview `"partial preview"` is
overwritten by the terminal frame's `"FINAL"`. -/
theorem C4_fullContent_overwrites_witness :
    findMsg "streaming-1"
        (handleWebSocketMessage (sampleStreamingState "partial preview")
          (.stream_complete "FINAL" ["s1"])).messages
        = some (applyComplete "FINAL" ["s1"] (sampleStreamingMsg "partial preview"))
      ∧ (applyComplete "FINAL" ["s1"] (sampleStreamingMsg "partial preview")).content
        = "FINAL"
      ∧ (applyComplete "FINAL" ["s1"] (sampleStreamingMsg "partial preview")).isStreaming
        = false
      ∧ (handleWebSocketMessage (sampleStreamingState "partial preview")
          (.stream_complete "FINAL" ["s1"])).streamingMessageId = none :=
  C4_fullContent_overwrites (sampleStreamingState "partial preview")
    "streaming-1" (sampleStreamingMsg "partial preview") "FINAL" ["s1"]
    rfl (by decide)

/-- **C6.** Explicitly cancelling an active stream whose streaming message
is `m` leaves exactly `m.content ++ "\n\n" ++ cancelNotice` as the final
content (the partial content stays visible), takes the message out of the
streaming state, clears the ref, and immediately re-enables submission. -/
theorem C6_cancellation (s : ChatState) (sid : String) (m : Message)
    (h : s.streamingMessageId = some sid)
    (hm : findMsg sid s.messages = some m) :
    findMsg sid (handleStopGeneration s).messages = some (applyCancel m)
      ∧ (applyCancel m).content = m.content ++ "\n\n" ++ cancelNotice
      ∧ (applyCancel m).isStreaming = false
      ∧ (handleStopGeneration s).canSendMessage = true
      ∧ (handleStopGeneration s).streamingMessageId = none := by
  rw [handleStopGeneration_some h]
  have h2 := findMsg_updateFirst_self sid applyCancel applyCancel_id s.messages
  rw [hm, Option.map_some'] at h2
  exact ⟨h2, rfl, rfl, rfl, rfl⟩

/-- Witness for C6, matching the spec's example: cancelling with partial
content `"Hello wor"` yields
`"Hello wor\n\n[생성이 중단되었습니다]"` and re-enables submission. -/
theorem C6_cancellation_witness :
    findMsg "streaming-1"
        (handleStopGeneration (sampleStreamingState "Hello wor")).messages
        = some (applyCancel (sampleStreamingMsg "Hello wor"))
      ∧ (applyCancel (sampleStreamingMsg "Hello wor")).content
        = "Hello wor\n\n[생성이 중단되었습니다]"
      ∧ (handleStopGeneration (sampleStreamingState "Hello wor")).canSendMessage
        = true :=
  ⟨(C6_cancellation (sampleStreamingState "Hello wor") "streaming-1"
      (sampleStreamingMsg "Hello wor") rfl (by decide)).1,
   by decide,
   (C6_cancellation (sampleStreamingState "Hello wor") "streaming-1"
      (sampleStreamingMsg "Hello wor") rfl (by decide)).2.2.2.1⟩

/-- **C2, counterexample.**  The claim states that on an `error` frame the
partial accumulated content is preserved with a failure notice appended.
At the concrete input — a stream with partial content `"Hello wor"`
receiving an `error` frame — the code instead assigns the classified
notice as the whole content: the partial content is not a prefix of the
final content and does not occur in it at all. -/
theorem C2_counterexample :
    findMsg "streaming-1"
        (handleWebSocketMessage (sampleStreamingState "Hello wor")
          (.error "boom")).messages
        = some (applyWsError "boom" (sampleStreamingMsg "Hello wor"))
      ∧ (applyWsError "boom" (sampleStreamingMsg "Hello wor")).content
        = defaultErrorMsg
      ∧ ("Hello wor".data.isPrefixOf defaultErrorMsg.data) = false
      ∧ charListIncludes "Hello wor".data defaultErrorMsg.data = false :=
  ⟨by decide, by decide, by decide, by decide⟩

/-- **C2, amended.**  On an `error` frame the assistant message
transitions to an errored terminal state, but its content is *replaced*
by the locale-appropriate classified failure notice (the partial content
is discarded, not appended to), and the streaming ref is cleared; on a
pull-transport failure the streaming message is removed outright and a
standalone errored message carrying the failure notice is appended, with
the gate re-enabled. -/
theorem C2_amended_error_replaces (s : ChatState) (sid : String)
    (m : Message) (msg errText : String) (now : Nat)
    (h : s.streamingMessageId = some sid)
    (hm : findMsg sid s.messages = some m) :
    (findMsg sid (handleWebSocketMessage s (.error msg)).messages
          = some (applyWsError msg m)
        ∧ (applyWsError msg m).content = classifyWsError msg
        ∧ (applyWsError msg m).isError = true
        ∧ (applyWsError msg m).isStreaming = false
        ∧ (handleWebSocketMessage s (.error msg)).streamingMessageId = none)
      ∧ ((sseCatchStep s errText now).messages
          = s.messages.filter (fun m' => m'.id != sid)
            ++ [mkErrorMessage now errText]
        ∧ (mkErrorMessage now errText).isError = true
        ∧ (sseCatchStep s errText now).canSendMessage = true
        ∧ (sseCatchStep s errText now).streamingMessageId = none) := by
  constructor
  · rw [handleWebSocketMessage_errorFrame h msg]
    have h2 := findMsg_updateFirst_self sid (applyWsError msg)
      (applyWsError_id msg) s.messages
    rw [hm, Option.map_some'] at h2
    exact ⟨h2, rfl, rfl, rfl, rfl⟩
  · refine ⟨?_, rfl, ?_, ?_⟩ <;> simp [sseCatchStep, h]

/-- Witness for the amended C2 at a concrete mid-stream state. -/
theorem C2_amended_error_replaces_witness :
    findMsg "streaming-1"
        (handleWebSocketMessage (sampleStreamingState "Hello wor")
          (.error "rate limit hit")).messages
        = some (applyWsError "rate limit hit" (sampleStreamingMsg "Hello wor"))
      ∧ (applyWsError "rate limit hit" (sampleStreamingMsg "Hello wor")).content
        = classifyWsError "rate limit hit"
      ∧ (sseCatchStep (sampleStreamingState "Hello wor") "연결 오류" 2).messages
        = (sampleStreamingState "Hello wor").messages.filter
            (fun m' => m'.id != "streaming-1") ++ [mkErrorMessage 2 "연결 오류"]
      ∧ (sseCatchStep (sampleStreamingState "Hello wor") "연결 오류" 2).canSendMessage
        = true :=
  ⟨(C2_amended_error_replaces (sampleStreamingState "Hello wor") "streaming-1"
      (sampleStreamingMsg "Hello wor") "rate limit hit" "연결 오류" 2 rfl
      (by decide)).1.1,
   (C2_amended_error_replaces (sampleStreamingState "Hello wor") "streaming-1"
      (sampleStreamingMsg "Hello wor") "rate limit hit" "연결 오류" 2 rfl
      (by decide)).1.2.1,
   (C2_amended_error_replaces (sampleStreamingState "Hello wor") "streaming-1"
      (sampleStreamingMsg "Hello wor") "rate limit hit" "연결 오류" 2 rfl
      (by decide)).2.1,
   (C2_amended_error_replaces (sampleStreamingState "Hello wor") "streaming-1"
      (sampleStreamingMsg "Hello wor") "rate limit hit" "연결 오류" 2 rfl
      (by decide)).2.2.2.1⟩

/-- **C3, evaluation at the failing input.**  The claim says every
terminal state restores the `canSendMessage` gate.  On the push
transport, after a send has taken the gate, the terminal `stream_complete`
and `error` branches of `handleWebSocketMessage` null the streaming ref
but never call `setCanSendMessage(true)` (and on a successful WebSocket
send `handleSendMessage` returned early, skipping its trailing
`setCanSendMessage(true)`), so the gate stays `false` — while the SSE
completion callback and explicit cancellation do restore it.  The hook's
own log line "WebSocket 스트리밍 완료 - 입력 활성화" (in
`handleStreamingComplete`, which the push path never invokes) and the
`window.chatDebug.enableSendMessage` workaround shipped in
`debugUtils.js` indicate the restoration was intended. -/
theorem C3_gate_stuck_on_push_terminal :
    (handleWebSocketMessage (sampleStreamingState "partial")
        (.stream_complete "done" [])).canSendMessage = false
      ∧ (handleWebSocketMessage (sampleStreamingState "partial")
          (.stream_complete "done" [])).streamingMessageId = none
      ∧ (handleWebSocketMessage (sampleStreamingState "partial")
          (.error "boom")).canSendMessage = false
      ∧ (handleWebSocketMessage (sampleStreamingState "partial")
          (.error "boom")).streamingMessageId = none
      ∧ (handleStreamingComplete (sampleStreamingState "partial")
          "done").canSendMessage = true
      ∧ (handleStopGeneration (sampleStreamingState "partial")).canSendMessage
        = true :=
  ⟨by decide, by decide, by decide, by decide, by decide, by decide⟩

/-- **C8.**  For every begun send whose full outbound history (settled
messages plus the new user message) exceeds 50 entries, the trimmed
history shipped in the request is exactly the most recent 50 entries in
order — it is the length-50 suffix of the full history — and both the
push-transport call and the pull-transport request body carry exactly
that trimmed history. -/
theorem C8_history_trimming (s : ChatState) (now : Nat) (b : SendBegin)
    (cards : List PromptCard) (modelId : String) (cid uid : Option String)
    (hb : handleSendMessageBegin s now = some b)
    (h50 : 50 < (toChatHistory (s.messages
      ++ [mkUserMessage now (jsTrim s.inputValue)])).length) :
    b.trimmedChatHistory
        = (toChatHistory (s.messages
            ++ [mkUserMessage now (jsTrim s.inputValue)])).drop
          ((toChatHistory (s.messages
            ++ [mkUserMessage now (jsTrim s.inputValue)])).length - 50)
      ∧ b.trimmedChatHistory.length = 50
      ∧ (toChatHistory (s.messages
            ++ [mkUserMessage now (jsTrim s.inputValue)])).take
          ((toChatHistory (s.messages
            ++ [mkUserMessage now (jsTrim s.inputValue)])).length - 50)
          ++ b.trimmedChatHistory
        = toChatHistory (s.messages ++ [mkUserMessage now (jsTrim s.inputValue)])
      ∧ (buildWsRequest b cards modelId cid uid).chatHistory
        = b.trimmedChatHistory
      ∧ (buildSseRequest b cards modelId).chat_history
        = b.trimmedChatHistory := by
  obtain ⟨hmsgs, href, hgate, hinp, hsid, huser, hhist⟩ := sendBegin_spec hb
  refine ⟨by rw [hhist]; rfl, ?_, ?_, rfl, rfl⟩
  · rw [hhist]
    simp only [sliceLast, maxHistoryLength, List.length_drop]
    omega
  · rw [hhist]
    simp only [sliceLast, maxHistoryLength]
    exact List.take_append_drop _ _

/-- Witness for C8: from the concrete 60-message conversation the
outbound history on both transports is exactly the 50-entry suffix of the
61-entry full history. -/
theorem C8_history_trimming_witness :
    sampleSendBegin.trimmedChatHistory
        = (toChatHistory (longHistoryState.messages
            ++ [mkUserMessage 999 (jsTrim longHistoryState.inputValue)])).drop
          ((toChatHistory (longHistoryState.messages
            ++ [mkUserMessage 999 (jsTrim longHistoryState.inputValue)])).length - 50)
      ∧ sampleSendBegin.trimmedChatHistory.length = 50
      ∧ (toChatHistory (longHistoryState.messages
            ++ [mkUserMessage 999 (jsTrim longHistoryState.inputValue)])).take
          ((toChatHistory (longHistoryState.messages
            ++ [mkUserMessage 999 (jsTrim longHistoryState.inputValue)])).length - 50)
          ++ sampleSendBegin.trimmedChatHistory
        = toChatHistory (longHistoryState.messages
            ++ [mkUserMessage 999 (jsTrim longHistoryState.inputValue)])
      ∧ (buildWsRequest sampleSendBegin [] "model-a" none none).chatHistory
        = sampleSendBegin.trimmedChatHistory
      ∧ (buildSseRequest sampleSendBegin [] "model-a").chat_history
        = sampleSendBegin.trimmedChatHistory :=
  C8_history_trimming longHistoryState 999 sampleSendBegin [] "model-a"
    none none (by rfl) (by decide)

/-! ## SSE read-loop lemmas -/

theorem extractResult_ne_empty {e : Option String} {r : String}
    (h : extractResult e = some r) : (r == "") = false := by
  cases e with
  | none => cases h
  | some r0 =>
    simp only [extractResult] at h
    by_cases hr : (r0 == "") = true
    · rw [if_pos hr] at h
      cases h
    · rw [if_neg hr] at h
      injection h with h
      subst h
      simpa using hr

theorem mem_extractResults_ne_empty {evts : List (Option String)} {r : String}
    (h : r ∈ extractResults evts) : (r == "") = false := by
  induction evts with
  | nil => cases h
  | cons e t ih =>
    cases he : extractResult e with
    | none =>
      simp only [extractResults, List.filterMap_cons, he] at h
      exact ih h
    | some r0 =>
      simp only [extractResults, List.filterMap_cons, he] at h
      cases h with
      | head => exact extractResult_ne_empty he
      | tail _ h2 => exact ih h2

theorem getLastD_mem_of_ne_nil {l : List String} (h : l ≠ []) (d : String) :
    l.getLastD d ∈ l := by
  induction l generalizing d with
  | nil => exact absurd rfl h
  | cons a t ih =>
    cases t with
    | nil => simp [List.getLastD]
    | cons b t2 =>
      have h2 := ih (by simp) a
      simp only [List.getLastD] at h2 ⊢
      exact List.mem_cons_of_mem a h2

theorem foldl_sse_snd (evts : List (Option String)) :
    ∀ acc : ChatState × String,
      (evts.foldl processSseEvent acc).2 = (extractResults evts).getLastD acc.2 := by
  induction evts with
  | nil => intro acc; rfl
  | cons e t ih =>
    intro acc
    rw [List.foldl_cons]
    cases he : extractResult e with
    | none =>
      simp only [processSseEvent, he]
      rw [ih acc]
      simp only [extractResults, List.filterMap_cons, he]
    | some r =>
      simp only [processSseEvent, he]
      rw [ih _]
      simp only [extractResults, List.filterMap_cons, he, List.getLastD_cons]

theorem handleStreamingResponse_ref (s : ChatState) (c : String) :
    (handleStreamingResponse s c).streamingMessageId = s.streamingMessageId := by
  cases h : s.streamingMessageId with
  | none =>
    rw [handleStreamingResponse_noRef s c h]
    exact h
  | some sid =>
    rw [handleStreamingResponse_some h c]
    exact h

theorem sse_loop_ref (evts : List (Option String)) :
    ∀ acc : ChatState × String,
      ((evts.foldl processSseEvent acc).1).streamingMessageId
        = acc.1.streamingMessageId := by
  induction evts with
  | nil => intro acc; rfl
  | cons e t ih =>
    intro acc
    rw [List.foldl_cons]
    cases he : extractResult e with
    | none => simp only [processSseEvent, he]; exact ih acc
    | some r =>
      simp only [processSseEvent, he]
      rw [ih _]
      exact handleStreamingResponse_ref acc.1 r

theorem handleStreamingResponse_keeps {s : ChatState} {sid : String}
    {m : Message} (hm : findMsg sid s.messages = some m) (c : String) :
    ∃ m', findMsg sid (handleStreamingResponse s c).messages = some m' := by
  cases h : s.streamingMessageId with
  | none =>
    rw [handleStreamingResponse_noRef s c h]
    exact ⟨m, hm⟩
  | some sid0 =>
    rw [handleStreamingResponse_some h c]
    by_cases hs : sid = sid0
    · subst hs
      have h2 := findMsg_updateFirst_self sid (applySseChunk c)
        (applySseChunk_id c) s.messages
      rw [hm, Option.map_some'] at h2
      exact ⟨applySseChunk c m, h2⟩
    · have h3 := findMsg_updateFirst_other sid0 sid hs (applySseChunk c)
        (applySseChunk_id c) s.messages
      rw [hm] at h3
      exact ⟨m, h3⟩

theorem sse_loop_keeps (evts : List (Option String)) :
    ∀ (acc : ChatState × String) (sid : String) (m : Message),
      findMsg sid acc.1.messages = some m →
      ∃ m', findMsg sid ((evts.foldl processSseEvent acc).1).messages = some m' := by
  induction evts with
  | nil => intro acc sid m hm; exact ⟨m, hm⟩
  | cons e t ih =>
    intro acc sid m hm
    rw [List.foldl_cons]
    cases he : extractResult e with
    | none =>
      simp only [processSseEvent, he]
      exact ih acc sid m hm
    | some r =>
      simp only [processSseEvent, he]
      obtain ⟨m1, hm1⟩ := handleStreamingResponse_keeps hm r
      exact ih _ sid m1 hm1

theorem sse_loop_id_of_no_results (evts : List (Option String))
    (h : extractResults evts = []) :
    ∀ acc : ChatState × String, evts.foldl processSseEvent acc = acc := by
  induction evts with
  | nil => intro acc; rfl
  | cons e t ih =>
    intro acc
    cases he : extractResult e with
    | some r =>
      simp only [extractResults, List.filterMap_cons, he] at h
      cases h
    | none =>
      simp only [extractResults, List.filterMap_cons, he] at h
      rw [List.foldl_cons]
      simp only [processSseEvent, he]
      exact ih h acc

/-- **C10.**  For every pull-transport run over a framed event sequence:
if at least one frame carried a non-empty `result` payload, the terminal
content of the streaming message equals exactly the payload of the last
such frame (assigned wholesale by `handleStreamingComplete`, regardless
of what accumulated during streaming), the message leaves the streaming
state, the ref is cleared and the gate re-enabled; if no such frame was
parsed, the run takes the error path (`throw` into the catch block)
instead of completing. -/
theorem C10_sse_terminal_content (s : ChatState) (sid : String) (m : Message)
    (evts : List (Option String)) (errText : String) (now : Nat)
    (h : s.streamingMessageId = some sid)
    (hm : findMsg sid s.messages = some m) :
    (extractResults evts ≠ [] →
        ∃ m', findMsg sid (finishSse (runSseLoop s evts) errText now).messages
            = some m'
          ∧ m'.content = (extractResults evts).getLastD ""
          ∧ m'.isStreaming = false
          ∧ (finishSse (runSseLoop s evts) errText now).canSendMessage = true
          ∧ (finishSse (runSseLoop s evts) errText now).streamingMessageId
            = none)
      ∧ (extractResults evts = [] →
          finishSse (runSseLoop s evts) errText now
            = sseCatchStep s errText now) := by
  constructor
  · intro hne
    have hsnd : (runSseLoop s evts).2 = (extractResults evts).getLastD "" :=
      foldl_sse_snd evts (s, "")
    have hne2 : ((runSseLoop s evts).2 == "") = false := by
      rw [hsnd]
      exact mem_extractResults_ne_empty (getLastD_mem_of_ne_nil hne "")
    have href : (runSseLoop s evts).1.streamingMessageId = some sid := by
      have := sse_loop_ref evts (s, "")
      simpa [runSseLoop] using this.trans h
    obtain ⟨m1, hm1⟩ := sse_loop_keeps evts (s, "") sid m hm
    have hm1' : findMsg sid (runSseLoop s evts).1.messages = some m1 := hm1
    have hfin : finishSse (runSseLoop s evts) errText now
        = handleStreamingComplete (runSseLoop s evts).1 (runSseLoop s evts).2 := by
      simp [finishSse, hne2]
    rw [hfin, handleStreamingComplete_some href]
    have h2 := findMsg_updateFirst_self sid
      (applySseComplete (runSseLoop s evts).2)
      (applySseComplete_id (runSseLoop s evts).2)
      (runSseLoop s evts).1.messages
    rw [hm1', Option.map_some'] at h2
    refine ⟨applySseComplete (runSseLoop s evts).2 m1, h2, ?_, rfl, rfl, rfl⟩
    simpa [applySseComplete] using hsnd
  · intro hnil
    have hloop : evts.foldl processSseEvent (s, "") = (s, "") :=
      sse_loop_id_of_no_results evts hnil (s, "")
    have hrun : runSseLoop s evts = (s, "") := hloop
    rw [hrun]
    simp [finishSse]

/-- Witness for C10: a concrete run with frames `"반"`, a parse failure,
`""` (dropped by the truthiness guard) and `"반갑습니다"` ends with exactly
`"반갑습니다"` as content and the gate re-enabled; a run with only parse
failures and empty payloads takes the error path. -/
theorem C10_sse_terminal_content_witness :
    (∃ m', findMsg "streaming-1"
          (finishSse (runSseLoop (sampleStreamingState "")
            [some "반", none, some "", some "반갑습니다"]) "err" 7).messages
          = some m'
        ∧ m'.content = (extractResults
            [some "반", none, some "", some "반갑습니다"]).getLastD ""
        ∧ m'.isStreaming = false
        ∧ (finishSse (runSseLoop (sampleStreamingState "")
            [some "반", none, some "", some "반갑습니다"]) "err" 7).canSendMessage
          = true
        ∧ (finishSse (runSseLoop (sampleStreamingState "")
            [some "반", none, some "", some "반갑습니다"]) "err" 7).streamingMessageId
          = none)
      ∧ finishSse (runSseLoop (sampleStreamingState "") [none, some ""]) "err" 7
        = sseCatchStep (sampleStreamingState "") "err" 7 :=
  ⟨(C10_sse_terminal_content (sampleStreamingState "") "streaming-1"
      (sampleStreamingMsg "") [some "반", none, some "", some "반갑습니다"]
      "err" 7 rfl (by decide)).1 (by decide),
   (C10_sse_terminal_content (sampleStreamingState "") "streaming-1"
      (sampleStreamingMsg "") [none, some ""] "err" 7 rfl (by decide)).2
      (by decide)⟩

/-- **C1, evaluation at the failing input.**  The claim (and spec §4.4)
says pull-transport payloads are applied as full replacements.  In the
code the SSE read loop feeds each cumulative payload to
`handleStreamingResponse`, which *appends*: after the frames `"a"` then
`"ab"` (the cumulative text so far), the streaming message's content is
`"aab"` — a concatenation — and not the frame's payload `"ab"`.  The
code's own `fullResponse = eventData.result` (overwrite, not append) and
the terminal wholesale assignment show the payloads are cumulative, so
the mid-stream append duplicates text; the terminal content snaps back to
`"ab"`. -/
theorem C1_sse_append_at_failing_input :
    extractResults [some "a", some "ab"] = ["a", "ab"]
      ∧ findMsg "streaming-1"
          (runSseLoop (sampleStreamingState "") [some "a", some "ab"]).1.messages
        = some (applySseChunk "ab" (applySseChunk "a" (sampleStreamingMsg "")))
      ∧ (applySseChunk "ab" (applySseChunk "a" (sampleStreamingMsg ""))).content
        = "aab"
      ∧ ((applySseChunk "ab" (applySseChunk "a" (sampleStreamingMsg ""))).content
          == "ab") = false
      ∧ (∃ m', findMsg "streaming-1"
            (finishSse (runSseLoop (sampleStreamingState "")
              [some "a", some "ab"]) "err" 3).messages = some m'
          ∧ m'.content = "ab") :=
  ⟨by decide, by decide, by decide, by decide,
   ⟨applySseComplete "ab"
      (applySseChunk "ab" (applySseChunk "a" (sampleStreamingMsg ""))),
    by decide, by decide⟩⟩

/-! ## Lemmas for the per-message lifecycle invariants -/

theorem sseCatchStep_noRef {s : ChatState} (h : s.streamingMessageId = none)
    (errText : String) (now : Nat) :
    sseCatchStep s errText now =
      { s with messages := s.messages ++ [mkErrorMessage now errText], streamingMessageId := none, canSendMessage := true } := by
  simp [sseCatchStep, h]

theorem sseCatchStep_some {s : ChatState} {sid : String}
    (h : s.streamingMessageId = some sid) (errText : String) (now : Nat) :
    sseCatchStep s errText now =
      { s with messages := s.messages.filter (fun m => m.id != sid) ++ [mkErrorMessage now errText], streamingMessageId := none, canSendMessage := true } := by
  simp [sseCatchStep, h]

theorem findMsg_after_update {sid i : String} {l : List Message}
    {f : Message → Message} (hf : ∀ x, (f x).id = x.id)
    {m m' : Message}
    (hm : findMsg i l = some m)
    (hm' : findMsg i (updateFirst (fun x => x.id == sid) f l) = some m') :
    (i = sid ∧ m' = f m) ∨ (i ≠ sid ∧ m' = m) := by
  by_cases hi : i = sid
  · subst hi
    rw [findMsg_updateFirst_self i f hf l, hm, Option.map_some'] at hm'
    injection hm' with hm'
    exact Or.inl ⟨rfl, hm'.symm⟩
  · rw [findMsg_updateFirst_other sid i hi f hf l, hm] at hm'
    injection hm' with hm'
    exact Or.inr ⟨hi, hm'.symm⟩

theorem c9_chunk_update {s : ChatState} {sid i : String} {m m' : Message}
    {f : Message → Message}
    (hf : ∀ x, (f x).id = x.id)
    (hlen : ∀ x, x.content.length ≤ (f x).content.length)
    (inv : StreamingRefInv s)
    (href : s.streamingMessageId = some sid)
    (hm : findMsg i s.messages = some m)
    (hm' : findMsg i (updateFirst (fun x => x.id == sid) f s.messages) = some m') :
    (m.isStreaming = true → m'.isStreaming = true →
      m.content.length ≤ m'.content.length)
      ∧ (m.isStreaming = false → m' = m) := by
  rcases findMsg_after_update hf hm hm' with ⟨hi, hmf⟩ | ⟨hi, hmf⟩
  · subst hi
    refine ⟨fun _ _ => ?_, fun hfalse => ?_⟩
    · rw [hmf]
      exact hlen m
    · have hstr := inv i m href hm
      rw [hfalse] at hstr
      cases hstr
  · exact ⟨fun _ _ => by rw [hmf], fun _ => hmf⟩

theorem c9_terminal_update {s : ChatState} {sid i : String} {m m' : Message}
    {f : Message → Message}
    (hf : ∀ x, (f x).id = x.id)
    (hfs : ∀ x, (f x).isStreaming = false)
    (inv : StreamingRefInv s)
    (href : s.streamingMessageId = some sid)
    (hm : findMsg i s.messages = some m)
    (hm' : findMsg i (updateFirst (fun x => x.id == sid) f s.messages) = some m') :
    (m.isStreaming = true → m'.isStreaming = true →
      m.content.length ≤ m'.content.length)
      ∧ (m.isStreaming = false → m' = m) := by
  rcases findMsg_after_update hf hm hm' with ⟨hi, hmf⟩ | ⟨hi, hmf⟩
  · subst hi
    refine ⟨fun _ h2 => ?_, fun hfalse => ?_⟩
    · rw [hmf, hfs m] at h2
      cases h2
    · have hstr := inv i m href hm
      rw [hfalse] at hstr
      cases hstr
  · exact ⟨fun _ _ => by rw [hmf], fun _ => hmf⟩

theorem c9_identity_case {m m' : Message} (h : some m = some m') :
    (m.isStreaming = true → m'.isStreaming = true →
      m.content.length ≤ m'.content.length)
      ∧ (m.isStreaming = false → m' = m) := by
  injection h with h
  subst h
  exact ⟨fun _ _ => le_refl _, fun _ => rfl⟩

/-- **C9.**  Per-message lifecycle invariants, for any single event fired
from any reachable state: (i) while a message is streaming, a step that
leaves it streaming never shortens its content (every mid-stream update
is an append), and (ii) a message that has reached a terminal state
(`isStreaming = false`) is never modified again — in particular it never
re-enters a non-terminal state.  Messages are tracked by id through
`findMsg`, the lookup every keyed update uses. -/
theorem C9_streaming_invariants (s : ChatState) (e : ChatEvent)
    (i : String) (m m' : Message)
    (hr : Reachable s)
    (hm : findMsg i s.messages = some m)
    (hm' : findMsg i (chatStep s e).messages = some m') :
    (m.isStreaming = true → m'.isStreaming = true →
      m.content.length ≤ m'.content.length)
      ∧ (m.isStreaming = false → m' = m) := by
  have inv := reachable_inv hr
  cases e with
  | input v =>
    have hm'2 : findMsg i s.messages = some m' := hm'
    exact c9_identity_case (hm ▸ hm'2)
  | ws f =>
    cases f with
    | stream_start =>
      have hm'2 : findMsg i s.messages = some m' := hm'
      exact c9_identity_case (hm ▸ hm'2)
    | progress st p =>
      have hm'2 : findMsg i s.messages = some m' := hm'
      exact c9_identity_case (hm ▸ hm'2)
    | stream_chunk c ci tc =>
      cases href : s.streamingMessageId with
      | none =>
        rw [show chatStep s (.ws (.stream_chunk c ci tc)) = s from
          handleWebSocketMessage_noRef s (.stream_chunk c ci tc) href] at hm'
        exact c9_identity_case (hm ▸ hm')
      | some sid =>
        rw [show chatStep s (.ws (.stream_chunk c ci tc)) = _ from
          handleWebSocketMessage_chunk href c ci tc] at hm'
        have hm'2 : findMsg i (updateFirst (fun x => x.id == sid)
            (applyChunk c) s.messages) = some m' := hm'
        refine c9_chunk_update (applyChunk_id c) ?_ inv href hm hm'2
        intro x
        simp [applyChunk, String.length_append]
    | stream_complete fc srcs =>
      cases href : s.streamingMessageId with
      | none =>
        rw [show chatStep s (.ws (.stream_complete fc srcs)) = s from
          handleWebSocketMessage_noRef s (.stream_complete fc srcs) href] at hm'
        exact c9_identity_case (hm ▸ hm')
      | some sid =>
        rw [show chatStep s (.ws (.stream_complete fc srcs)) = _ from
          handleWebSocketMessage_complete href fc srcs] at hm'
        have hm'2 : findMsg i (updateFirst (fun x => x.id == sid)
            (applyComplete fc srcs) s.messages) = some m' := hm'
        exact c9_terminal_update (applyComplete_id fc srcs)
          (fun x => rfl) inv href hm hm'2
    | error msg =>
      cases href : s.streamingMessageId with
      | none =>
        rw [show chatStep s (.ws (.error msg)) = s from
          handleWebSocketMessage_noRef s (.error msg) href] at hm'
        exact c9_identity_case (hm ▸ hm')
      | some sid =>
        rw [show chatStep s (.ws (.error msg)) = _ from
          handleWebSocketMessage_errorFrame href msg] at hm'
        have hm'2 : findMsg i (updateFirst (fun x => x.id == sid)
            (applyWsError msg) s.messages) = some m' := hm'
        exact c9_terminal_update (applyWsError_id msg)
          (fun x => rfl) inv href hm hm'2
  | sseChunk c =>
    cases href : s.streamingMessageId with
    | none =>
      rw [show chatStep s (.sseChunk c) = s from
        handleStreamingResponse_noRef s c href] at hm'
      exact c9_identity_case (hm ▸ hm')
    | some sid =>
      rw [show chatStep s (.sseChunk c) = _ from
        handleStreamingResponse_some href c] at hm'
      have hm'2 : findMsg i (updateFirst (fun x => x.id == sid)
          (applySseChunk c) s.messages) = some m' := hm'
      refine c9_chunk_update (applySseChunk_id c) ?_ inv href hm hm'2
      intro x
      simp [applySseChunk, String.length_append]
  | sseComplete r =>
    cases href : s.streamingMessageId with
    | none =>
      rw [show chatStep s (.sseComplete r) = s from
        handleStreamingComplete_noRef s r href] at hm'
      exact c9_identity_case (hm ▸ hm')
    | some sid =>
      rw [show chatStep s (.sseComplete r) = _ from
        handleStreamingComplete_some href r] at hm'
      have hm'2 : findMsg i (updateFirst (fun x => x.id == sid)
          (applySseComplete r) s.messages) = some m' := hm'
      exact c9_terminal_update (applySseComplete_id r)
        (fun x => rfl) inv href hm hm'2
  | stop =>
    cases href : s.streamingMessageId with
    | none =>
      rw [show chatStep s .stop = _ from handleStopGeneration_noRef s href] at hm'
      have hm'2 : findMsg i s.messages = some m' := hm'
      exact c9_identity_case (hm ▸ hm'2)
    | some sid =>
      rw [show chatStep s .stop = _ from handleStopGeneration_some href] at hm'
      have hm'2 : findMsg i (updateFirst (fun x => x.id == sid)
          applyCancel s.messages) = some m' := hm'
      exact c9_terminal_update applyCancel_id (fun x => rfl) inv href hm hm'2
  | send now =>
    cases hb : handleSendMessageBegin s now with
    | none =>
      have hstep : chatStep s (.send now) = s := by
        simp [chatStep, sendMessageStep, hb]
      rw [hstep] at hm'
      exact c9_identity_case (hm ▸ hm')
    | some b =>
      have hstep : chatStep s (.send now) = b.state := by
        simp [chatStep, sendMessageStep, hb]
      rw [hstep] at hm'
      obtain ⟨hmsgs, _, _, _, _, _, _⟩ := sendBegin_spec hb
      rw [hmsgs] at hm'
      rw [findMsg_append_some hm _] at hm'
      exact c9_identity_case hm'
  | sseFail msg now =>
    cases href : s.streamingMessageId with
    | none =>
      rw [show chatStep s (.sseFail msg now) = _ from
        sseCatchStep_noRef href msg now] at hm'
      have hm'2 : findMsg i (s.messages ++ [mkErrorMessage now msg])
          = some m' := hm'
      rw [findMsg_append_some hm _] at hm'2
      exact c9_identity_case hm'2
    | some sid =>
      rw [show chatStep s (.sseFail msg now) = _ from
        sseCatchStep_some href msg now] at hm'
      have hm'2 : findMsg i (s.messages.filter (fun x => x.id != sid)
          ++ [mkErrorMessage now msg]) = some m' := hm'
      by_cases hi : i = sid
      · subst hi
        have hstr := inv i m href hm
        refine ⟨fun _ h2 => ?_, fun hfalse => ?_⟩
        · rw [findMsg_append_none (findMsg_filter_self i s.messages) _] at hm'2
          by_cases he : ((mkErrorMessage now msg).id == i) = true
          · simp only [findMsg, List.find?, he] at hm'2
            injection hm'2 with hm'2
            rw [← hm'2] at h2
            simp [mkErrorMessage] at h2
          · simp only [findMsg, List.find?] at hm'2
            rw [Bool.not_eq_true] at he
            rw [he] at hm'2
            cases hm'2
        · rw [hfalse] at hstr
          cases hstr
      · rw [findMsg_append_some (by rw [findMsg_filter_ne sid i hi s.messages]; exact hm) _] at hm'2
        exact c9_identity_case hm'2

/-- Witness for C9 at a concrete reachable state: after typing "hi" and
sending (turn 1), the streaming placeholder receives a chunk; the step
does not shorten the streaming content and would leave any terminal
message untouched. -/
theorem C9_streaming_invariants_witness :
    ((mkStreamingMessage 1).isStreaming = true →
        (applyChunk "!!" (mkStreamingMessage 1)).isStreaming = true →
        (mkStreamingMessage 1).content.length
          ≤ (applyChunk "!!" (mkStreamingMessage 1)).content.length)
      ∧ ((mkStreamingMessage 1).isStreaming = false →
          applyChunk "!!" (mkStreamingMessage 1) = mkStreamingMessage 1) :=
  C9_streaming_invariants
    (chatStep (chatStep initialChatState (.input "hi")) (.send 1))
    (.ws (.stream_chunk "!!" 0 1)) "streaming-1"
    (mkStreamingMessage 1) (applyChunk "!!" (mkStreamingMessage 1))
    (Reachable.step (Reachable.step Reachable.init trivial)
      (by intro x hx; simp [chatStep, initialChatState] at hx))
    (by decide) (by decide)
